import Mathlib

/-!
Shallow embedding of `bottle_mysql_connector.py` (the `MySQLConnectorPlugin`
class): route-config merging in `apply`, the signature check, the
keyword-collision check in `setup`, and the per-request `wrapper` closure.
The database backend and the route callback are modelled by a `World`
describing how each external call behaves; the wrapper is a pure function
from a merged configuration and a world to the list of backend events it
performs and the outcome it produces.
-/

set_option autoImplicit false

namespace BottleMysql

/-- Python values that appear in plugin / route configuration:
strings, numbers, booleans and Python `None`. -/
inductive CVal where
  | vStr (s : String)
  | vNat (n : Nat)
  | vBool (b : Bool)
  | vNone
deriving DecidableEq, Repr

/-- Python truthiness of a configuration value (`if time_zone:` etc.). -/
def truthy : CVal → Bool
  | .vStr s => !(s == "")
  | .vNat n => !(n == 0)
  | .vBool b => b
  | .vNone => false

/-- Python `None` test, used by the `config_dict` comprehension that drops
`None`-valued connection parameters. -/
def isNoneV : CVal → Bool
  | .vNone => true
  | _ => false

/-- The string content of a keyword value (the plugin is used with a string
`keyword`; `sig.parameters` membership compares strings). -/
def keywordStr : CVal → String
  | .vStr s => s
  | _ => ""

/-- First-match lookup in an association list, as Python `dict.get`. -/
def lookupC : List (String × CVal) → String → Option CVal
  | [], _ => none
  | (k, v) :: rest, key => if k = key then some v else lookupC rest key

/-- The route configuration consulted by `apply`: either the nested form
(`config['mysql']` is a mapping) or the flat dotted form
(`config['mysql.<key>']`). `mysqlNested = some d` models `"mysql" in config`
with `config['mysql'] = d`. -/
structure RouteConfig where
  mysqlNested : Option (List (String × CVal))
  flat : List (String × CVal)
deriving DecidableEq, Repr

/-- The accessor `g(key, default)` built at the top of `apply`. -/
def g (rc : RouteConfig) (key : String) (default : CVal) : CVal :=
  match rc.mysqlNested with
  | some d => (lookupC d key).getD default
  | none => (lookupC rc.flat ("mysql." ++ key)).getD default

/-- The plugin object: the fields set in `MySQLConnectorPlugin.__init__`,
plus the class attribute `name`. -/
structure MySQLConnectorPlugin where
  host : CVal := .vStr "localhost"
  port : CVal := .vNat 3306
  user : CVal := .vNone
  password : CVal := .vNone
  database : CVal := .vNone
  autocommit : CVal := .vBool true
  dictionary : CVal := .vBool true
  keyword : CVal := .vStr "db"
  charset : CVal := .vStr "utf8mb4"
  time_zone : CVal := .vNone
  buffered : CVal := .vBool false
  raise_on_warnings : CVal := .vBool false
  use_pure : CVal := .vBool true
  name : String := "mysql"
deriving DecidableEq, Repr

/-- The per-route merged configuration captured by the `wrapper` closure:
the thirteen `g(key, self.<key>)` results computed in `apply`. -/
structure MergedConfig where
  host : CVal
  port : CVal
  user : CVal
  password : CVal
  database : CVal
  autocommit : CVal
  dictionary : CVal
  keyword : CVal
  charset : CVal
  time_zone : CVal
  buffered : CVal
  raise_on_warnings : CVal
  use_pure : CVal
deriving DecidableEq, Repr

/-- Lines 129-141 of `apply`: route overlay wins field by field, absent keys
fall back to the plugin's global values. -/
def mergeConfig (p : MySQLConnectorPlugin) (rc : RouteConfig) : MergedConfig where
  host := g rc "host" p.host
  port := g rc "port" p.port
  user := g rc "user" p.user
  password := g rc "password" p.password
  database := g rc "database" p.database
  autocommit := g rc "autocommit" p.autocommit
  dictionary := g rc "dictionary" p.dictionary
  keyword := g rc "keyword" p.keyword
  charset := g rc "charset" p.charset
  time_zone := g rc "time_zone" p.time_zone
  buffered := g rc "buffered" p.buffered
  raise_on_warnings := g rc "raise_on_warnings" p.raise_on_warnings
  use_pure := g rc "use_pure" p.use_pure

/-- The `config_dict` handed to `mysql.connector.connect(**config_dict)`:
the nine connection parameters, with `None` values removed. -/
def connectArgs (cfg : MergedConfig) : List (String × CVal) :=
  ([("user", cfg.user), ("password", cfg.password), ("host", cfg.host),
    ("port", cfg.port), ("database", cfg.database), ("charset", cfg.charset),
    ("autocommit", cfg.autocommit),
    ("raise_on_warnings", cfg.raise_on_warnings),
    ("use_pure", cfg.use_pure)]).filter (fun pr => !isNoneV pr.2)

/-- The kind of a Python exception, as discriminated by the `except` clauses
of the wrapper. `mysqlIntegrity` is `mysql.connector.IntegrityError` (a
subclass of `mysql.connector.Error`), `httpError` is `bottle.HTTPError` (a
subclass of `bottle.HTTPResponse`), `httpResponse` is a `bottle.HTTPResponse`
that is not an `HTTPError`, and `other` is any other `Exception`. -/
inductive ExcKind where
  | mysqlIntegrity
  | mysqlErr
  | httpError (status : Nat)
  | httpResponse (status : Nat)
  | other
deriving DecidableEq, Repr

/-- Whether an exception kind is caught by `except mysql.connector.Error`. -/
def isMysqlErr : ExcKind → Bool
  | .mysqlIntegrity => true
  | .mysqlErr => true
  | _ => false

/-- The behaviour of one external call during acquisition: it either
succeeds or raises an exception of some kind with some message. -/
inductive StepRes where
  | ok
  | exc (k : ExcKind) (m : String)
deriving DecidableEq, Repr

/-- The behaviour of the route callback: it returns a value or raises. -/
inductive HandlerRes where
  | ret (v : Nat)
  | exc (k : ExcKind) (m : String)
deriving DecidableEq, Repr

/-- One invocation's external world: how `mysql.connector.connect`,
`cnx.cursor`, the time-zone `cursor.execute` and the route callback behave,
and what `cnx.is_connected()` reports afterwards. -/
structure World where
  connectRes : StepRes
  cursorRes : StepRes
  tzRes : StepRes
  handlerRes : HandlerRes
  isConnected : Bool
deriving DecidableEq, Repr

/-- Observable events: the calls the wrapper makes on the backend and the
route callback, in order. -/
inductive Event where
  | connect (args : List (String × CVal))
  | mkCursor (dictionary : Bool) (buffered : Bool)
  | execute (stmt : String) (param : CVal)
  | callHandler
  | commit
  | rollback
  | closeCursor
  | closeCnx
deriving DecidableEq, Repr

/-- How one wrapper invocation terminates: a normal return, a
wrapper-constructed `bottle.HTTPError(500, msg)`, or a re-raise of the
original exception object unchanged. -/
inductive Outcome where
  | ret (v : Nat)
  | raiseHTTPError (status : Nat) (msg : String)
  | reRaise (k : ExcKind) (m : String)
deriving DecidableEq, Repr

/-- The trace and outcome of one invocation. -/
structure WrapResult where
  events : List Event
  outcome : Outcome
deriving DecidableEq, Repr

/-- The error message built by the acquisition `except` clauses:
the connection-error text for `mysql.connector.Error`, the unexpected-error
text for any other exception, each followed by the cause text. -/
def acqMsg (k : ExcKind) (m : String) : String :=
  (if isMysqlErr k then "Database Connection Error: " else "Unexpected Error: ") ++ m

/-- The acquisition events on the successful path: `connect`, `cursor`, and
the time-zone statement when `time_zone` is truthy. -/
def acqEvents (cfg : MergedConfig) : List Event :=
  [Event.connect (connectArgs cfg),
   Event.mkCursor (truthy cfg.dictionary) (truthy cfg.buffered)] ++
  (if truthy cfg.time_zone
   then [Event.execute "SET time_zone = %s" cfg.time_zone] else [])

/-- Lines 198-239: the `try ... except ... finally` around the callback
invocation, given that acquisition succeeded and `acq` are the acquisition
events. The `finally` closes the cursor and the connection on every path. -/
def execPhase (cfg : MergedConfig) (w : World) (acq : List Event) : WrapResult :=
  match w.handlerRes with
  | .ret v =>
      { events := acq ++ [Event.callHandler] ++
          (if truthy cfg.autocommit && w.isConnected then [Event.commit] else []) ++
          [Event.closeCursor, Event.closeCnx],
        outcome := .ret v }
  | .exc .mysqlIntegrity m =>
      { events := acq ++ [Event.callHandler] ++
          (if w.isConnected then [Event.rollback] else []) ++
          [Event.closeCursor, Event.closeCnx],
        outcome := .raiseHTTPError 500 ("Database Integrity Error: " ++ m) }
  | .exc .mysqlErr m =>
      { events := acq ++ [Event.callHandler] ++
          (if w.isConnected then [Event.rollback] else []) ++
          [Event.closeCursor, Event.closeCnx],
        outcome := .raiseHTTPError 500 ("Database Error: " ++ m) }
  | .exc (.httpError s) m =>
      { events := acq ++ [Event.callHandler] ++
          (if truthy cfg.autocommit && w.isConnected then [Event.rollback] else []) ++
          [Event.closeCursor, Event.closeCnx],
        outcome := .reRaise (.httpError s) m }
  | .exc (.httpResponse s) m =>
      { events := acq ++ [Event.callHandler] ++
          (if truthy cfg.autocommit && w.isConnected then [Event.commit] else []) ++
          [Event.closeCursor, Event.closeCnx],
        outcome := .reRaise (.httpResponse s) m }
  | .exc .other m =>
      { events := acq ++ [Event.callHandler] ++
          (if w.isConnected then [Event.rollback] else []) ++
          [Event.closeCursor, Event.closeCnx],
        outcome := .reRaise .other m }

/-- Lines 149-239: the wrapper closure. Acquisition failures close the
connection when one was opened (the cursor is not closed there) and raise
`bottle.HTTPError(500, ...)`; on successful acquisition the callback runs
under the `try/except/finally` of `execPhase`. -/
def wrapper (cfg : MergedConfig) (w : World) : WrapResult :=
  match w.connectRes with
  | .exc k m =>
      { events := [Event.connect (connectArgs cfg)],
        outcome := .raiseHTTPError 500 (acqMsg k m) }
  | .ok =>
    match w.cursorRes with
    | .exc k m =>
        { events := [Event.connect (connectArgs cfg),
                     Event.mkCursor (truthy cfg.dictionary) (truthy cfg.buffered),
                     Event.closeCnx],
          outcome := .raiseHTTPError 500 (acqMsg k m) }
    | .ok =>
      if truthy cfg.time_zone then
        match w.tzRes with
        | .exc k m =>
            { events := [Event.connect (connectArgs cfg),
                         Event.mkCursor (truthy cfg.dictionary) (truthy cfg.buffered),
                         Event.execute "SET time_zone = %s" cfg.time_zone,
                         Event.closeCnx],
              outcome := .raiseHTTPError 500 (acqMsg k m) }
        | .ok => execPhase cfg w (acqEvents cfg)
      else execPhase cfg w (acqEvents cfg)

/-- Acquisition succeeds: `connect` and `cursor` succeed, and the time-zone
statement succeeds whenever it is executed. -/
def acquireOk (cfg : MergedConfig) (w : World) : Prop :=
  w.connectRes = .ok ∧ w.cursorRes = .ok ∧
  (truthy cfg.time_zone = true → w.tzRes = .ok)

/-- The result of `apply`: either the callback returned unmodified (the
keyword is not among the callback's parameters) or the wrapper closure over
the merged configuration. -/
inductive Applied where
  | unmodified
  | wrapped (cfg : MergedConfig)
deriving DecidableEq, Repr

/-- Lines 117-242 of `MySQLConnectorPlugin.apply`, abstracted over the
callback's declared parameter names. -/
def applyPlugin (p : MySQLConnectorPlugin) (rc : RouteConfig)
    (params : List String) : Applied :=
  let cfg := mergeConfig p rc
  if keywordStr cfg.keyword ∈ params then .wrapped cfg else .unmodified

/-- Invoking the result of `apply` in a world: an unmodified callback just
runs (one callback call, value or exception passed through); a wrapped one
runs the wrapper. -/
def runApplied (a : Applied) (w : World) : WrapResult :=
  match a with
  | .unmodified =>
      { events := [Event.callHandler],
        outcome :=
          match w.handlerRes with
          | .ret v => .ret v
          | .exc k m => .reRaise k m }
  | .wrapped cfg => wrapper cfg w

/-- Event counters over a trace. -/
def isConnectEv : Event → Bool
  | .connect _ => true
  | _ => false

/-- Whether an event is the time-zone `cursor.execute`. -/
def isExecuteEv : Event → Bool
  | .execute _ _ => true
  | _ => false

/-- Whether an event is a callback invocation. -/
def isCallEv : Event → Bool
  | .callHandler => true
  | _ => false

/-- Whether an event is `cnx.commit()`. -/
def isCommitEv : Event → Bool
  | .commit => true
  | _ => false

/-- Whether an event is `cnx.rollback()`. -/
def isRollbackEv : Event → Bool
  | .rollback => true
  | _ => false

/-- Whether an event is `cursor.close()`. -/
def isCloseCursorEv : Event → Bool
  | .closeCursor => true
  | _ => false

/-- Whether an event is `cnx.close()`. -/
def isCloseCnxEv : Event → Bool
  | .closeCnx => true
  | _ => false

/-- Installed plugins visible in `app.plugins` during `setup`: instances of
`MySQLConnectorPlugin`, and anything else (skipped by the loop). -/
inductive Installed where
  | mysqlP (p : MySQLConnectorPlugin)
  | otherP
deriving DecidableEq, Repr

/-- Lines 104-115: the `setup` loop over `app.plugins`. A matching keyword
raises `PluginError`; a matching name disambiguates `self.name` and the loop
continues. -/
def setupLoop (self : MySQLConnectorPlugin) :
    List Installed → Except String MySQLConnectorPlugin
  | [] => .ok self
  | .otherP :: rest => setupLoop self rest
  | .mysqlP o :: rest =>
      if o.keyword = self.keyword then
        .error "Found another mysql-connector plugin with conflicting settings (non-unique keyword)."
      else if o.name = self.name then
        setupLoop { self with name := self.name ++ "_" ++ keywordStr self.keyword } rest
      else setupLoop self rest

/-- `Bottle.install`: `plugin.setup(app)` runs first (over the previously
installed plugins), then the plugin is appended to `app.plugins`. -/
def installP (plugins : List Installed) (p : MySQLConnectorPlugin) :
    Except String (List Installed) :=
  match setupLoop p plugins with
  | .error e => .error e
  | .ok p' => .ok (plugins ++ [.mysqlP p'])

end BottleMysql

namespace BottleMysql

/-- Prepending a fixed string is injective (used to relate the flat dotted
keys `"mysql." ++ key` to the nested keys). -/
theorem string_prepend_cancel (p a b : String) (h : p ++ a = p ++ b) : a = b := by
  have hd := congrArg String.data h
  simp only [String.data_append] at hd
  exact String.ext (List.append_cancel_left hd)

/-- The flat dotted-key form of a nested overlay: every key `k` becomes
`"mysql." ++ k`. -/
def flatOf (d : List (String × CVal)) : List (String × CVal) :=
  d.map (fun pr => ("mysql." ++ pr.1, pr.2))

/-- Looking up `"mysql." ++ key` in the flat form agrees with looking up
`key` in the nested form. -/
theorem lookupC_flatOf (d : List (String × CVal)) (key : String) :
    lookupC (flatOf d) ("mysql." ++ key) = lookupC d key := by
  induction d with
  | nil => rfl
  | cons x xs ih =>
      obtain ⟨k, v⟩ := x
      by_cases hk : k = key
      · subst hk; simp [flatOf, lookupC]
      · have hne : ¬("mysql." ++ k = "mysql." ++ key) :=
          fun hc => hk (string_prepend_cancel _ _ _ hc)
        simp only [flatOf, List.map_cons, lookupC, if_neg hne, if_neg hk] at *
        exact ih

/-- On successful acquisition the wrapper is the execution phase run after
the acquisition events. -/
theorem wrapper_of_acquireOk (cfg : MergedConfig) (w : World)
    (h : acquireOk cfg w) : wrapper cfg w = execPhase cfg w (acqEvents cfg) := by
  obtain ⟨hc, hcur, htz⟩ := h
  unfold wrapper
  rw [hc, hcur]
  by_cases ht : truthy cfg.time_zone = true
  · rw [if_pos ht, htz ht]
  · rw [if_neg ht]

/-- The acquisition events contain one `connect` and none of the other
counted calls. -/
theorem acq_counts (cfg : MergedConfig) :
    (acqEvents cfg).countP isConnectEv = 1 ∧
    (acqEvents cfg).countP isCallEv = 0 ∧
    (acqEvents cfg).countP isCommitEv = 0 ∧
    (acqEvents cfg).countP isRollbackEv = 0 ∧
    (acqEvents cfg).countP isCloseCursorEv = 0 ∧
    (acqEvents cfg).countP isCloseCnxEv = 0 := by
  unfold acqEvents
  by_cases ht : truthy cfg.time_zone = true <;>
    simp [ht, List.countP_cons, List.countP_nil, List.countP_append,
      isConnectEv, isCallEv, isCommitEv, isRollbackEv, isCloseCursorEv, isCloseCnxEv]

/-- Counting over a conditional singleton trace segment. -/
theorem countP_if_single (c : Prop) [Decidable c] (e : Event) (p : Event → Bool) :
    (if c then [e] else []).countP p = if c then (if p e then 1 else 0) else 0 := by
  by_cases h : c <;> simp [h, List.countP_cons, List.countP_nil]

/-- Lookup in a filtered association list skips a head entry with a
different key. -/
theorem lookupC_filter_cons_ne (f : String × CVal → Bool) (k : String) (v : CVal)
    (l : List (String × CVal)) (key : String) (hne : ¬k = key) :
    lookupC (((k, v) :: l).filter f) key = lookupC (l.filter f) key := by
  rw [List.filter_cons]
  by_cases hf : f (k, v) <;> simp [hf, lookupC, hne]

/-- If every entry of `l` carrying `key` holds a `None` value, the key is
absent from the `None`-filtered list. -/
theorem lookupC_filter_eq_none (l : List (String × CVal)) (key : String)
    (h : ∀ pr ∈ l, pr.1 = key → isNoneV pr.2 = true) :
    lookupC (l.filter (fun pr => !isNoneV pr.2)) key = none := by
  induction l with
  | nil => rfl
  | cons x xs ih =>
      rw [List.filter_cons]
      by_cases hf : (!isNoneV x.2) = true
      · by_cases hk : x.1 = key
        · have := h x (by simp) hk
          rw [this] at hf
          simp at hf
        · rw [if_pos hf]
          have : lookupC (x :: xs.filter (fun pr => !isNoneV pr.2)) key =
              lookupC (xs.filter (fun pr => !isNoneV pr.2)) key := by
            obtain ⟨xk, xv⟩ := x
            simp only [lookupC, if_neg hk]
          rw [this]
          exact ih (fun pr hm hkey => h pr (by simp [hm]) hkey)
      · rw [if_neg hf]
        exact ih (fun pr hm hkey => h pr (by simp [hm]) hkey)

/-- The `database` entry survives the `None` filter and is found by lookup
whenever its value is not `None`. -/
theorem lookupC_connectArgs_database (cfg : MergedConfig)
    (h : isNoneV cfg.database = false) :
    lookupC (connectArgs cfg) "database" = some cfg.database := by
  unfold connectArgs
  rw [lookupC_filter_cons_ne _ _ _ _ _ (by decide),
      lookupC_filter_cons_ne _ _ _ _ _ (by decide),
      lookupC_filter_cons_ne _ _ _ _ _ (by decide),
      lookupC_filter_cons_ne _ _ _ _ _ (by decide)]
  rw [List.filter_cons]
  simp [h, lookupC]

/-- Every successful wrapper trace begins with the `connect` call built from
the merged configuration. -/
theorem wrapper_events_head (cfg : MergedConfig) (w : World) :
    (wrapper cfg w).events.head? = some (Event.connect (connectArgs cfg)) := by
  have hexe : ∀ acqtail : List Event,
      (execPhase cfg w (Event.connect (connectArgs cfg) :: acqtail)).events.head? =
        some (Event.connect (connectArgs cfg)) := by
    intro acqtail
    unfold execPhase
    rcases w.handlerRes with v | ⟨k, m⟩
    · simp
    · cases k <;> simp
  unfold wrapper
  rcases w.connectRes with _ | ⟨k, m⟩
  · rcases w.cursorRes with _ | ⟨k, m⟩
    · by_cases ht : truthy cfg.time_zone = true
      · rw [if_pos ht]
        rcases w.tzRes with _ | ⟨k, m⟩
        · exact hexe _
        · rfl
      · rw [if_neg ht]
        exact hexe _
    · rfl
  · rfl

end BottleMysql

namespace BottleMysql

/-- A concrete merged configuration used to witness the lifecycle theorems:
the plugin defaults with explicit credentials and a database name. -/
def cfg0 : MergedConfig where
  host := .vStr "localhost"
  port := .vNat 3306
  user := .vStr "alice"
  password := .vStr "secret"
  database := .vStr "shop"
  autocommit := .vBool true
  dictionary := .vBool true
  keyword := .vStr "db"
  charset := .vStr "utf8mb4"
  time_zone := .vNone
  buffered := .vBool false
  raise_on_warnings := .vBool false
  use_pure := .vBool true

/-- C1: on every wrapped invocation whose acquisition succeeds (the four
exit paths of the callback `try` block: normal return, classified
`mysql` failure, framework-response re-raise, unclassified re-raise), the
trace holds exactly one `connect`, exactly one callback call, exactly one
`cursor.close()` and exactly one `cnx.close()`: the `finally` finalization
runs exactly once on every exit path. -/
theorem claim_c1_single_acquire_release (cfg : MergedConfig) (w : World)
    (h : acquireOk cfg w) :
    (wrapper cfg w).events.countP isConnectEv = 1 ∧
    (wrapper cfg w).events.countP isCallEv = 1 ∧
    (wrapper cfg w).events.countP isCloseCursorEv = 1 ∧
    (wrapper cfg w).events.countP isCloseCnxEv = 1 := by
  rw [wrapper_of_acquireOk cfg w h]
  obtain ⟨h1, h2, h3, h4, h5, h6⟩ := acq_counts cfg
  unfold execPhase
  rcases hw : w.handlerRes with v | ⟨k, m⟩
  case ret =>
    simp [List.countP_append, List.countP_cons, List.countP_nil, countP_if_single,
      isConnectEv, isCallEv, isCloseCursorEv, isCloseCnxEv, h1, h2, h5, h6, ite_self]
  case exc =>
    cases k <;>
    simp [List.countP_append, List.countP_cons, List.countP_nil, countP_if_single,
      isConnectEv, isCallEv, isCloseCursorEv, isCloseCnxEv, h1, h2, h5, h6, ite_self]

/-- Witness for C1 at a concrete configuration and world. -/
theorem claim_c1_single_acquire_release_witness :
    acquireOk cfg0 ⟨.ok, .ok, .ok, .ret 7, true⟩ ∧
    ((wrapper cfg0 ⟨.ok, .ok, .ok, .ret 7, true⟩).events.countP isConnectEv = 1 ∧
     (wrapper cfg0 ⟨.ok, .ok, .ok, .ret 7, true⟩).events.countP isCallEv = 1 ∧
     (wrapper cfg0 ⟨.ok, .ok, .ok, .ret 7, true⟩).events.countP isCloseCursorEv = 1 ∧
     (wrapper cfg0 ⟨.ok, .ok, .ok, .ret 7, true⟩).events.countP isCloseCnxEv = 1) :=
  ⟨⟨rfl, rfl, fun _ => rfl⟩,
   claim_c1_single_acquire_release cfg0 ⟨.ok, .ok, .ok, .ret 7, true⟩ ⟨rfl, rfl, fun _ => rfl⟩⟩

/-- C2: when the merged keyword is not among the callback's declared
parameters, `apply` returns the callback unmodified, no invocation of it
ever connects to the database, and its return value passes through
unchanged. -/
theorem claim_c2_unwrapped_passthrough (p : MySQLConnectorPlugin)
    (rc : RouteConfig) (params : List String) (w : World)
    (h : keywordStr (mergeConfig p rc).keyword ∉ params) :
    applyPlugin p rc params = .unmodified ∧
    (runApplied (applyPlugin p rc params) w).events.countP isConnectEv = 0 ∧
    (∀ v, w.handlerRes = .ret v →
      (runApplied (applyPlugin p rc params) w).outcome = .ret v) := by
  have happ : applyPlugin p rc params = .unmodified := by
    unfold applyPlugin
    rw [if_neg h]
  refine ⟨happ, ?_, ?_⟩
  · rw [happ]
    simp [runApplied, List.countP_cons, List.countP_nil, isConnectEv]
  · intro v hv
    rw [happ]
    simp [runApplied, hv]

/-- Witness for C2: a callback declaring only `item`, under the default
plugin configuration. -/
theorem claim_c2_unwrapped_passthrough_witness :
    keywordStr (mergeConfig {} ⟨none, []⟩).keyword ∉ ["item"] ∧
    applyPlugin {} ⟨none, []⟩ ["item"] = .unmodified ∧
    (runApplied (applyPlugin {} ⟨none, []⟩ ["item"]) ⟨.ok, .ok, .ok, .ret 5, true⟩).events.countP isConnectEv = 0 ∧
    (runApplied (applyPlugin {} ⟨none, []⟩ ["item"]) ⟨.ok, .ok, .ok, .ret 5, true⟩).outcome = .ret 5 := by
  have h := claim_c2_unwrapped_passthrough {} ⟨none, []⟩ ["item"]
    ⟨.ok, .ok, .ok, .ret 5, true⟩ (by decide)
  exact ⟨by decide, h.1, h.2.1, h.2.2 5 rfl⟩

/-- C3: on a wrapped invocation whose acquisition succeeds and whose
callback returns normally, the return value is propagated unchanged; with
`autocommit` truthy and a live connection, `commit` runs exactly once and
`rollback` never; with `autocommit` falsy, `commit` never runs. -/
theorem claim_c3_commit_on_success (cfg : MergedConfig) (w : World) (v : Nat)
    (hacq : acquireOk cfg w) (hret : w.handlerRes = .ret v) :
    (wrapper cfg w).outcome = .ret v ∧
    (truthy cfg.autocommit = true → w.isConnected = true →
      (wrapper cfg w).events.countP isCommitEv = 1 ∧
      (wrapper cfg w).events.countP isRollbackEv = 0) ∧
    (truthy cfg.autocommit = false →
      (wrapper cfg w).events.countP isCommitEv = 0) := by
  rw [wrapper_of_acquireOk cfg w hacq]
  obtain ⟨h1, h2, h3, h4, h5, h6⟩ := acq_counts cfg
  unfold execPhase
  rw [hret]
  refine ⟨by simp, ?_, ?_⟩
  · intro ha hc
    simp [ha, hc, List.countP_append, List.countP_cons, List.countP_nil,
      isCommitEv, isRollbackEv, h3, h4]
  · intro ha
    simp [ha, List.countP_append, List.countP_cons, List.countP_nil,
      isCommitEv, h3]

/-- Witness for C3 at a concrete configuration and world. -/
theorem claim_c3_commit_on_success_witness :
    acquireOk cfg0 ⟨.ok, .ok, .ok, .ret 42, true⟩ ∧
    (wrapper cfg0 ⟨.ok, .ok, .ok, .ret 42, true⟩).outcome = .ret 42 ∧
    (wrapper cfg0 ⟨.ok, .ok, .ok, .ret 42, true⟩).events.countP isCommitEv = 1 ∧
    (wrapper cfg0 ⟨.ok, .ok, .ok, .ret 42, true⟩).events.countP isRollbackEv = 0 := by
  have h := claim_c3_commit_on_success cfg0 ⟨.ok, .ok, .ok, .ret 42, true⟩ 42
    ⟨rfl, rfl, fun _ => rfl⟩ rfl
  exact ⟨⟨rfl, rfl, fun _ => rfl⟩, h.1, (h.2.1 (by decide) rfl).1, (h.2.1 (by decide) rfl).2⟩

end BottleMysql

namespace BottleMysql

/-- C4: on a wrapped invocation whose acquisition succeeds, whose callback
raises `mysql.connector.IntegrityError` and whose connection is still alive,
`rollback` runs exactly once, `commit` never, and the invocation raises a
fresh `bottle.HTTPError(500, ...)` whose message contains `Integrity` and
embeds the upstream cause text. -/
theorem claim_c4_integrity_rollback (cfg : MergedConfig) (w : World) (m : String)
    (hacq : acquireOk cfg w) (hexc : w.handlerRes = .exc .mysqlIntegrity m)
    (halive : w.isConnected = true) :
    (wrapper cfg w).events.countP isRollbackEv = 1 ∧
    (wrapper cfg w).events.countP isCommitEv = 0 ∧
    (wrapper cfg w).outcome = .raiseHTTPError 500 ("Database Integrity Error: " ++ m) ∧
    (∃ a b : String, "Database Integrity Error: " ++ m = a ++ "Integrity" ++ b) := by
  rw [wrapper_of_acquireOk cfg w hacq]
  obtain ⟨h1, h2, h3, h4, h5, h6⟩ := acq_counts cfg
  unfold execPhase
  rw [hexc]
  refine ⟨?_, ?_, by simp, ⟨"Database ", " Error: " ++ m, ?_⟩⟩
  · simp [halive, List.countP_append, List.countP_cons, List.countP_nil,
      isRollbackEv, h4]
  · simp [halive, List.countP_append, List.countP_cons, List.countP_nil,
      isCommitEv, h3]
  · simp [← String.append_assoc]

/-- Witness for C4 at a concrete configuration and world. -/
theorem claim_c4_integrity_rollback_witness :
    acquireOk cfg0 ⟨.ok, .ok, .ok, .exc .mysqlIntegrity "dup key", true⟩ ∧
    (wrapper cfg0 ⟨.ok, .ok, .ok, .exc .mysqlIntegrity "dup key", true⟩).events.countP isRollbackEv = 1 ∧
    (wrapper cfg0 ⟨.ok, .ok, .ok, .exc .mysqlIntegrity "dup key", true⟩).events.countP isCommitEv = 0 ∧
    (wrapper cfg0 ⟨.ok, .ok, .ok, .exc .mysqlIntegrity "dup key", true⟩).outcome =
      .raiseHTTPError 500 "Database Integrity Error: dup key" := by
  have h := claim_c4_integrity_rollback cfg0
    ⟨.ok, .ok, .ok, .exc .mysqlIntegrity "dup key", true⟩ "dup key"
    ⟨rfl, rfl, fun _ => rfl⟩ rfl rfl
  exact ⟨⟨rfl, rfl, fun _ => rfl⟩, h.1, h.2.1, h.2.2.1⟩

/-- C5: on a wrapped invocation whose acquisition succeeds, with the commit
policy truthy and a live connection, a raised framework response is
discriminated by its kind, never by its status value: for every status `s`,
a raised `bottle.HTTPError` (error kind) triggers rollback and is re-raised
unchanged, and a raised plain `bottle.HTTPResponse` (success-carrying kind)
triggers commit and is re-raised unchanged; neither becomes a wrapper
failure. -/
theorem claim_c5_response_kind_discrimination (cfg : MergedConfig) (w : World)
    (s : Nat) (m : String) (hacq : acquireOk cfg w)
    (hpolicy : truthy cfg.autocommit = true) (halive : w.isConnected = true) :
    (w.handlerRes = .exc (.httpError s) m →
      (wrapper cfg w).events.countP isRollbackEv = 1 ∧
      (wrapper cfg w).events.countP isCommitEv = 0 ∧
      (wrapper cfg w).outcome = .reRaise (.httpError s) m) ∧
    (w.handlerRes = .exc (.httpResponse s) m →
      (wrapper cfg w).events.countP isCommitEv = 1 ∧
      (wrapper cfg w).events.countP isRollbackEv = 0 ∧
      (wrapper cfg w).outcome = .reRaise (.httpResponse s) m) := by
  rw [wrapper_of_acquireOk cfg w hacq]
  obtain ⟨h1, h2, h3, h4, h5, h6⟩ := acq_counts cfg
  constructor
  · intro hexc
    unfold execPhase
    rw [hexc]
    refine ⟨?_, ?_, by simp⟩
    · simp [hpolicy, halive, List.countP_append, List.countP_cons, List.countP_nil,
        isRollbackEv, h4]
    · simp [hpolicy, halive, List.countP_append, List.countP_cons, List.countP_nil,
        isCommitEv, h3]
  · intro hexc
    unfold execPhase
    rw [hexc]
    refine ⟨?_, ?_, by simp⟩
    · simp [hpolicy, halive, List.countP_append, List.countP_cons, List.countP_nil,
        isCommitEv, h3]
    · simp [hpolicy, halive, List.countP_append, List.countP_cons, List.countP_nil,
        isRollbackEv, h4]

/-- Witness for C5: a raised plain `HTTPResponse` with the non-2xx status
404 still commits and is re-raised with its status intact, because the
decision is by kind, not by status value. -/
theorem claim_c5_response_kind_discrimination_witness :
    acquireOk cfg0 ⟨.ok, .ok, .ok, .exc (.httpResponse 404) "see other", true⟩ ∧
    truthy cfg0.autocommit = true ∧
    (wrapper cfg0 ⟨.ok, .ok, .ok, .exc (.httpResponse 404) "see other", true⟩).events.countP isCommitEv = 1 ∧
    (wrapper cfg0 ⟨.ok, .ok, .ok, .exc (.httpResponse 404) "see other", true⟩).events.countP isRollbackEv = 0 ∧
    (wrapper cfg0 ⟨.ok, .ok, .ok, .exc (.httpResponse 404) "see other", true⟩).outcome =
      .reRaise (.httpResponse 404) "see other" := by
  have h := claim_c5_response_kind_discrimination cfg0
    ⟨.ok, .ok, .ok, .exc (.httpResponse 404) "see other", true⟩ 404 "see other"
    ⟨rfl, rfl, fun _ => rfl⟩ rfl rfl
  have h2 := h.2 rfl
  exact ⟨⟨rfl, rfl, fun _ => rfl⟩, rfl, h2.1, h2.2.1, h2.2.2⟩

/-- C7: on a wrapped invocation whose acquisition succeeds and whose
callback raises an exception that is neither a `mysql.connector` error nor a
framework response, the wrapper rolls back exactly when the connection is
alive, never commits, and re-raises the original exception unchanged with no
wrapping. -/
theorem claim_c7_unclassified_reraise (cfg : MergedConfig) (w : World) (m : String)
    (hacq : acquireOk cfg w) (hexc : w.handlerRes = .exc .other m) :
    (wrapper cfg w).outcome = .reRaise .other m ∧
    (wrapper cfg w).events.countP isCommitEv = 0 ∧
    (wrapper cfg w).events.countP isRollbackEv = (if w.isConnected then 1 else 0) := by
  rw [wrapper_of_acquireOk cfg w hacq]
  obtain ⟨h1, h2, h3, h4, h5, h6⟩ := acq_counts cfg
  unfold execPhase
  rw [hexc]
  refine ⟨by simp, ?_, ?_⟩
  · simp [List.countP_append, List.countP_cons, List.countP_nil, countP_if_single,
      isCommitEv, h3, ite_self]
  · by_cases hc : w.isConnected = true <;>
      simp [hc, List.countP_append, List.countP_cons, List.countP_nil,
        isRollbackEv, h4]

/-- Witness for C7 at a concrete configuration and world. -/
theorem claim_c7_unclassified_reraise_witness :
    acquireOk cfg0 ⟨.ok, .ok, .ok, .exc .other "KeyError", true⟩ ∧
    (wrapper cfg0 ⟨.ok, .ok, .ok, .exc .other "KeyError", true⟩).outcome =
      .reRaise .other "KeyError" ∧
    (wrapper cfg0 ⟨.ok, .ok, .ok, .exc .other "KeyError", true⟩).events.countP isCommitEv = 0 ∧
    (wrapper cfg0 ⟨.ok, .ok, .ok, .exc .other "KeyError", true⟩).events.countP isRollbackEv = 1 := by
  have h := claim_c7_unclassified_reraise cfg0
    ⟨.ok, .ok, .ok, .exc .other "KeyError", true⟩ "KeyError"
    ⟨rfl, rfl, fun _ => rfl⟩ rfl
  exact ⟨⟨rfl, rfl, fun _ => rfl⟩, h.1, h.2.1, by rw [h.2.2]; rfl⟩

end BottleMysql

namespace BottleMysql

/-- C6: on a wrapped invocation whose acquisition fails — at `connect`, at
`cnx.cursor`, or at the time-zone `cursor.execute` — the opened connection
(if any) is closed, the callback is never invoked, and the invocation
raises a classified `bottle.HTTPError(500, ...)` embedding the upstream
cause instead of the raw exception. -/
theorem claim_c6_acquisition_failure (cfg : MergedConfig) (w : World)
    (k : ExcKind) (m : String) :
    (w.connectRes = .exc k m →
      wrapper cfg w =
        { events := [Event.connect (connectArgs cfg)],
          outcome := .raiseHTTPError 500 (acqMsg k m) }) ∧
    (w.connectRes = .ok → w.cursorRes = .exc k m →
      wrapper cfg w =
        { events := [Event.connect (connectArgs cfg),
                     Event.mkCursor (truthy cfg.dictionary) (truthy cfg.buffered),
                     Event.closeCnx],
          outcome := .raiseHTTPError 500 (acqMsg k m) }) ∧
    (w.connectRes = .ok → w.cursorRes = .ok → truthy cfg.time_zone = true →
      w.tzRes = .exc k m →
      wrapper cfg w =
        { events := [Event.connect (connectArgs cfg),
                     Event.mkCursor (truthy cfg.dictionary) (truthy cfg.buffered),
                     Event.execute "SET time_zone = %s" cfg.time_zone,
                     Event.closeCnx],
          outcome := .raiseHTTPError 500 (acqMsg k m) }) := by
  refine ⟨?_, ?_, ?_⟩
  · intro hc
    unfold wrapper
    rw [hc]
  · intro hc hcur
    unfold wrapper
    rw [hc, hcur]
  · intro hc hcur htz htze
    unfold wrapper
    rw [hc, hcur, if_pos htz, htze]

/-- Witness for C6: a failing `connect` produces only the `connect` attempt
and a classified 500 carrying the cause text. -/
theorem claim_c6_acquisition_failure_witness :
    wrapper cfg0 ⟨.exc .mysqlErr "Access denied", .ok, .ok, .ret 0, true⟩ =
      { events := [Event.connect (connectArgs cfg0)],
        outcome := .raiseHTTPError 500 "Database Connection Error: Access denied" } :=
  (claim_c6_acquisition_failure cfg0
    ⟨.exc .mysqlErr "Access denied", .ok, .ok, .ret 0, true⟩
    .mysqlErr "Access denied").1 rfl

/-- C8: the route overlay is merged onto the plugin configuration with
overlay values winning field by field and absent keys falling back to the
global values; the nested mapping form and the flat dotted-key form merge
identically; and an overlay `database = "override_db"` over a global
`database = "default_db"` makes the `connect` call, which always opens every
wrapped trace, carry `database = "override_db"`. -/
theorem claim_c8_route_overlay_merge (p : MySQLConnectorPlugin)
    (d l : List (String × CVal)) (key : String) (default v : CVal) :
    mergeConfig p ⟨some d, l⟩ = mergeConfig p ⟨none, flatOf d⟩ ∧
    (lookupC d key = some v → g ⟨some d, l⟩ key default = v) ∧
    (lookupC d key = none → g ⟨some d, l⟩ key default = default) ∧
    (p.database = .vStr "default_db" →
      (mergeConfig p ⟨some [("database", .vStr "override_db")], l⟩).database =
        .vStr "override_db" ∧
      lookupC (connectArgs (mergeConfig p ⟨some [("database", .vStr "override_db")], l⟩))
        "database" = some (.vStr "override_db") ∧
      (∀ w : World,
        (wrapper (mergeConfig p ⟨some [("database", .vStr "override_db")], l⟩) w).events.head? =
          some (Event.connect
            (connectArgs (mergeConfig p ⟨some [("database", .vStr "override_db")], l⟩))))) := by
  refine ⟨?_, ?_, ?_, ?_⟩
  · simp only [mergeConfig, g, lookupC_flatOf]
  · intro h
    simp [g, h]
  · intro h
    simp [g, h]
  · intro hdb
    have hfield : (mergeConfig p ⟨some [("database", .vStr "override_db")], l⟩).database =
        .vStr "override_db" := by
      simp [mergeConfig, g, lookupC]
    refine ⟨hfield, ?_, fun w => wrapper_events_head _ w⟩
    rw [lookupC_connectArgs_database _ (by rw [hfield]; rfl), hfield]

/-- Witness for C8: the merged forms and the override example at the default
plugin with a global `default_db`. -/
theorem claim_c8_route_overlay_merge_witness :
    mergeConfig { database := .vStr "default_db" }
        ⟨some [("database", .vStr "override_db")], []⟩ =
      mergeConfig { database := .vStr "default_db" }
        ⟨none, flatOf [("database", .vStr "override_db")]⟩ ∧
    g ⟨some [("database", .vStr "override_db")], []⟩ "database" (.vStr "default_db") =
      .vStr "override_db" ∧
    g ⟨some [("database", .vStr "override_db")], []⟩ "host" (.vStr "localhost") =
      .vStr "localhost" ∧
    lookupC (connectArgs (mergeConfig { database := .vStr "default_db" }
        ⟨some [("database", .vStr "override_db")], []⟩)) "database" =
      some (.vStr "override_db") := by
  have h := claim_c8_route_overlay_merge { database := .vStr "default_db" }
    [("database", .vStr "override_db")] [] "database" (.vStr "default_db")
    (.vStr "override_db")
  have h2 := claim_c8_route_overlay_merge { database := .vStr "default_db" }
    [("database", .vStr "override_db")] [] "host" (.vStr "localhost")
    (.vStr "override_db")
  exact ⟨h.1, h.2.1 (by decide), h2.2.2.1 (by decide), (h.2.2.2 rfl).2.1⟩

end BottleMysql

namespace BottleMysql

/-- `setup` never changes the keyword of the plugin being set up. -/
theorem setupLoop_ok_keyword (l : List Installed) (self p' : MySQLConnectorPlugin)
    (h : setupLoop self l = .ok p') : p'.keyword = self.keyword := by
  induction l generalizing self with
  | nil =>
      simp only [setupLoop] at h
      cases h
      rfl
  | cons x xs ih =>
      cases x with
      | otherP => exact ih self h
      | mysqlP o =>
          simp only [setupLoop] at h
          by_cases hk : o.keyword = self.keyword
          · rw [if_pos hk] at h
            cases h
          · rw [if_neg hk] at h
            by_cases hn : o.name = self.name
            · rw [if_pos hn] at h
              have hk2 := ih _ h
              exact hk2
            · rw [if_neg hn] at h
              exact ih self h

/-- If any installed `MySQLConnectorPlugin` shares the keyword, `setup`
raises `PluginError`. -/
theorem setupLoop_duplicate (l : List Installed) (self : MySQLConnectorPlugin)
    (h : ∃ o, Installed.mysqlP o ∈ l ∧ o.keyword = self.keyword) :
    ∃ e, setupLoop self l = .error e := by
  induction l generalizing self with
  | nil =>
      obtain ⟨o, ho, _⟩ := h
      simp at ho
  | cons x xs ih =>
      obtain ⟨o, ho, hkw⟩ := h
      cases x with
      | otherP =>
          have hmem : Installed.mysqlP o ∈ xs := by
            rcases List.mem_cons.mp ho with hh | ht
            · cases hh
            · exact ht
          exact ih self ⟨o, hmem, hkw⟩
      | mysqlP q =>
          simp only [setupLoop]
          by_cases hk : q.keyword = self.keyword
          · rw [if_pos hk]
            exact ⟨_, rfl⟩
          · rw [if_neg hk]
            have hmem : Installed.mysqlP o ∈ xs := by
              rcases List.mem_cons.mp ho with hh | ht
              · cases hh
                exact absurd hkw hk
              · exact ht
            by_cases hn : q.name = self.name
            · rw [if_pos hn]
              exact ih _ ⟨o, hmem, hkw⟩
            · rw [if_neg hn]
              exact ih self ⟨o, hmem, hkw⟩

/-- C9: installing a second plugin whose keyword equals an already-installed
plugin's keyword fails inside `setup` itself — before the plugin is ever
added to `app.plugins`, hence before any request can reach a wrapper. -/
theorem claim_c9_duplicate_keyword_setup (p1 p2 : MySQLConnectorPlugin)
    (l0 l1 : List Installed) (hkw : p1.keyword = p2.keyword)
    (hinst : installP l0 p1 = .ok l1) :
    ∃ e, installP l1 p2 = .error e := by
  unfold installP at hinst
  cases hs : setupLoop p1 l0 with
  | error e => rw [hs] at hinst; cases hinst
  | ok p1' =>
      rw [hs] at hinst
      cases hinst
      have hk : p1'.keyword = p2.keyword := by
        rw [setupLoop_ok_keyword l0 p1 p1' hs, hkw]
      obtain ⟨e, he⟩ := setupLoop_duplicate (l0 ++ [.mysqlP p1']) p2
        ⟨p1', by simp, hk⟩
      refine ⟨e, ?_⟩
      unfold installP
      rw [he]

/-- Witness for C9: two default-keyword plugins on a fresh application. -/
theorem claim_c9_duplicate_keyword_setup_witness :
    installP [] { } = .ok [.mysqlP { }] ∧
    ∃ e, installP [.mysqlP { }] ({ } : MySQLConnectorPlugin) = .error e :=
  ⟨rfl, claim_c9_duplicate_keyword_setup { } { } [] [.mysqlP { }] rfl rfl⟩

/-- C10: merged connection parameters whose value is Python `None` are
omitted from the `connect` arguments rather than passed as null — no
`None` value ever reaches `connect`, and an unset `user`, `password` or
`database` key is absent — and with `time_zone` unset no time-zone
`cursor.execute` ever appears in any invocation's trace. -/
theorem claim_c10_none_params_omitted (cfg : MergedConfig) (w : World) :
    (∀ pr ∈ connectArgs cfg, pr.2 ≠ CVal.vNone) ∧
    (cfg.user = .vNone → lookupC (connectArgs cfg) "user" = none) ∧
    (cfg.password = .vNone → lookupC (connectArgs cfg) "password" = none) ∧
    (cfg.database = .vNone → lookupC (connectArgs cfg) "database" = none) ∧
    (cfg.time_zone = .vNone →
      (wrapper cfg w).events.countP isExecuteEv = 0) := by
  refine ⟨?_, ?_, ?_, ?_, ?_⟩
  · intro pr hpr
    have := (List.mem_filter.mp hpr).2
    cases hv : pr.2 <;> simp [hv, isNoneV] at this ⊢
  · intro h
    apply lookupC_filter_eq_none
    intro pr hpr hkey
    simp only [List.mem_cons, List.not_mem_nil, or_false] at hpr
    rcases hpr with h1 | h1 | h1 | h1 | h1 | h1 | h1 | h1 | h1 <;>
      (subst h1; first | rfl | (rw [h]; rfl) | simp at hkey)
  · intro h
    apply lookupC_filter_eq_none
    intro pr hpr hkey
    simp only [List.mem_cons, List.not_mem_nil, or_false] at hpr
    rcases hpr with h1 | h1 | h1 | h1 | h1 | h1 | h1 | h1 | h1 <;>
      (subst h1; first | rfl | (rw [h]; rfl) | simp at hkey)
  · intro h
    apply lookupC_filter_eq_none
    intro pr hpr hkey
    simp only [List.mem_cons, List.not_mem_nil, or_false] at hpr
    rcases hpr with h1 | h1 | h1 | h1 | h1 | h1 | h1 | h1 | h1 <;>
      (subst h1; first | rfl | (rw [h]; rfl) | simp at hkey)
  · intro h
    have ht : truthy cfg.time_zone = false := by rw [h]; rfl
    unfold wrapper
    rcases w.connectRes with _ | ⟨k, m⟩
    · rcases w.cursorRes with _ | ⟨k, m⟩
      · rw [if_neg (by rw [ht]; simp)]
        unfold execPhase acqEvents
        rw [ht]
        rcases w.handlerRes with v | ⟨k, m⟩
        · simp [List.countP_append, List.countP_cons, List.countP_nil,
            countP_if_single, isExecuteEv, ite_self]
        · cases k <;>
            simp [List.countP_append, List.countP_cons, List.countP_nil,
              countP_if_single, isExecuteEv, ite_self]
      · simp [List.countP_cons, List.countP_nil, isExecuteEv]
    · simp [List.countP_cons, List.countP_nil, isExecuteEv]

/-- Witness for C10: the default plugin leaves `user`, `password` and
`database` unset; none of them reaches the `connect` arguments, and no
time-zone statement runs. -/
theorem claim_c10_none_params_omitted_witness :
    (mergeConfig {} ⟨none, []⟩).user = .vNone ∧
    lookupC (connectArgs (mergeConfig {} ⟨none, []⟩)) "user" = none ∧
    lookupC (connectArgs (mergeConfig {} ⟨none, []⟩)) "password" = none ∧
    lookupC (connectArgs (mergeConfig {} ⟨none, []⟩)) "database" = none ∧
    (wrapper (mergeConfig {} ⟨none, []⟩) ⟨.ok, .ok, .ok, .ret 3, true⟩).events.countP isExecuteEv = 0 := by
  have h := claim_c10_none_params_omitted (mergeConfig {} ⟨none, []⟩)
    ⟨.ok, .ok, .ok, .ret 3, true⟩
  exact ⟨rfl, h.2.1 rfl, h.2.2.1 rfl, h.2.2.2.1 rfl, h.2.2.2.2 rfl⟩

end BottleMysql
